import Mathlib

/-!
Shallow embedding of the `lambda_handler` event router
(`src/lambda_handler/src/events.rs` and `src/lambda_handler/src/handler.rs`).

The router receives one already-decoded JSON value plus an invocation
context per call, tries the three built-in shape parses (S3, SNS, SQS) in
fixed declaration order, extracts a routing key from the first record of
the first successful parse, looks up `(TypeId, key)` in a registry of
type-erased handlers, and dispatches.

Modelling choices:
- `serde_json::Value` becomes the inductive `Json`.
- Rust panics (`records[0]` out-of-bounds indexing, `Option::expect`) are
  made explicit as the `PanicMsg` error of the extraction functions and the
  `panicked` outcome of dispatch.
- `TypeId::of::<E>()` for the closed set of `AwsEvent` implementations is
  the tag type `ShapeTag`; `Box<dyn Callable<R>>`, whose only constructors
  in this crate are `AwsEventHandler<T, R>` for the three event types, is
  the inductive `HandlerEntry`.
- The `HashMap<(TypeId, String), _>` registry is an association list with
  insert-replaces-existing-binding semantics (`insertEntry`/`getEntry`);
  a `HashMap` holds at most one binding per key, which appears below as a
  `countKey _ _ ≤ 1` hypothesis discharged by `countKey_route_le_one`.
- `LambdaError` values created by the dispatch path are the constructors of
  `DispatchError`; handler-level errors are `handlerFailure`.
- The exact record schemas are fixed by the external event producers
  (spec section 6) via the `aws_lambda_events` dependency; only the
  routing-relevant fields read by `events.rs` are modelled, and all other
  producer fields are ignored by parsing, mirroring serde leniency.
-/

namespace LambdaHandlerRs

/-- Generic structured value (`serde_json::Value`): the untyped payload the
router receives per invocation. -/
inductive Json where
  | null
  | bool (b : Bool)
  | num (n : Int)
  | str (s : String)
  | arr (elems : List Json)
  | obj (fields : List (String × Json))

/-- First binding of a field name in an object field list. -/
def lookupField : List (String × Json) → String → Option Json
  | [], _ => none
  | (k, v) :: rest, key => if k = key then some v else lookupField rest key

/-- Field lookup on a `Json` value: `none` when the value is not an object
or the field is absent. -/
def Json.lookup : Json → String → Option Json
  | .obj fields, key => lookupField fields key
  | _, _ => none

/-- Serde decoding of an optional string field with `default`: absent or
`null` gives `none`, a string gives `some`, any other value is a type
mismatch and fails the whole parse. -/
def getOptString : Option Json → Except Unit (Option String)
  | none => .ok none
  | some .null => .ok none
  | some (.str s) => .ok (some s)
  | some _ => .error ()

/-- Serde decoding of a required `String` field: fails unless the field is
present and a string. -/
def getString : Option Json → Except Unit String
  | some (.str s) => .ok s
  | _ => .error ()

/-- Serde decoding of the required top-level `Records` array shared by all
three event shapes: the payload must be an object whose `Records` field is
an array. -/
def getRecordsArray (j : Json) : Except Unit (List Json) :=
  match j.lookup "Records" with
  | some (.arr xs) => .ok xs
  | _ => .error ()

/-- Decodes every element of a records array, failing if any element
fails. -/
def parseAll {α : Type} (parseRec : Json → Except Unit α) : List Json → Except Unit (List α)
  | [] => .ok []
  | x :: xs => do
    let r ← parseRec x
    let rs ← parseAll parseRec xs
    .ok (r :: rs)

/-- One record of a storage-object (S3) event. Only the routing-relevant
field read by `events.rs` is modelled: the optional action name
`eventName`. -/
structure S3EventRecord where
  event_name : Option String
deriving DecidableEq

/-- Storage-object (S3) event: a `Records` array of `S3EventRecord`. -/
structure S3Event where
  records : List S3EventRecord
deriving DecidableEq

/-- Serde decoding of one S3 record: must be an object; `eventName` is an
optional string. -/
def S3EventRecord.from_json (j : Json) : Except Unit S3EventRecord :=
  match j with
  | .obj _ => do
    let n ← getOptString (j.lookup "eventName")
    .ok ⟨n⟩
  | _ => .error ()

/-- `S3Event::from_request` (`events.rs` line 14, via serde): decodes the
payload as an S3 event. -/
def S3Event.from_request (j : Json) : Except Unit S3Event := do
  let rs ← getRecordsArray j
  let recs ← parseAll S3EventRecord.from_json rs
  .ok ⟨recs⟩

/-- The inner message of a topic-notification (SNS) record. The routing
field `TopicArn` is a required string. -/
structure SnsMessage where
  topic_arn : String
deriving DecidableEq

/-- One record of a topic-notification (SNS) event: carries a required
`Sns` message. -/
structure SnsRecord where
  sns : SnsMessage
deriving DecidableEq

/-- Topic-notification (SNS) event: a `Records` array of `SnsRecord`. -/
structure SnsEvent where
  records : List SnsRecord
deriving DecidableEq

/-- Serde decoding of one SNS record: requires a `Sns` object field with a
required `TopicArn` string. -/
def SnsRecord.from_json (j : Json) : Except Unit SnsRecord :=
  match j.lookup "Sns" with
  | some m => do
    let arn ← getString (m.lookup "TopicArn")
    .ok ⟨⟨arn⟩⟩
  | none => .error ()

/-- `SnsEvent::from_request` (`events.rs` line 14, via serde): decodes the
payload as an SNS event. -/
def SnsEvent.from_request (j : Json) : Except Unit SnsEvent := do
  let rs ← getRecordsArray j
  let recs ← parseAll SnsRecord.from_json rs
  .ok ⟨recs⟩

/-- One message of a queue (SQS) event. Only the routing-relevant field is
modelled: the optional source identifier `eventSourceARN`. -/
structure SqsMessage where
  event_source_arn : Option String
deriving DecidableEq

/-- Queue-message (SQS) event: a `Records` array of `SqsMessage`. -/
structure SqsEvent where
  records : List SqsMessage
deriving DecidableEq

/-- Serde decoding of one SQS message: must be an object; `eventSourceARN`
is an optional string. -/
def SqsMessage.from_json (j : Json) : Except Unit SqsMessage :=
  match j with
  | .obj _ => do
    let a ← getOptString (j.lookup "eventSourceARN")
    .ok ⟨a⟩
  | _ => .error ()

/-- `SqsEvent::from_request` (`events.rs` line 14, via serde): decodes the
payload as an SQS event. -/
def SqsEvent.from_request (j : Json) : Except Unit SqsEvent := do
  let rs ← getRecordsArray j
  let recs ← parseAll SqsMessage.from_json rs
  .ok ⟨recs⟩

/-- Invocation context supplied by the external runtime
(`lambda_runtime::Context`); the router reads nothing from it, it is passed
through. The request identifier stands in for the per-call metadata. -/
structure Context where
  request_id : String
deriving DecidableEq

/-- `lambda_runtime::LambdaEvent<T>`: a payload plus the invocation
context. -/
structure LambdaEvent (T : Type) where
  payload : T
  context : Context
deriving DecidableEq

/-- `AwsEvent::from_event` (`events.rs` lines 19-25), generic in the
shape's parse function: re-parses the payload and rebuilds the
`LambdaEvent` with the same context. -/
def from_event {T : Type} (parse : Json → Except Unit T) (event : LambdaEvent Json) :
    Except Unit (LambdaEvent T) :=
  match parse event.payload with
  | .ok deserialised => .ok ⟨deserialised, event.context⟩
  | .error e => .error e

/-- `S3Event::from_event`. -/
def S3Event.from_event : LambdaEvent Json → Except Unit (LambdaEvent S3Event) :=
  LambdaHandlerRs.from_event S3Event.from_request

/-- `SnsEvent::from_event`. -/
def SnsEvent.from_event : LambdaEvent Json → Except Unit (LambdaEvent SnsEvent) :=
  LambdaHandlerRs.from_event SnsEvent.from_request

/-- `SqsEvent::from_event`. -/
def SqsEvent.from_event : LambdaEvent Json → Except Unit (LambdaEvent SqsEvent) :=
  LambdaHandlerRs.from_event SqsEvent.from_request

/-- A Rust panic raised on the key-extraction path: out-of-bounds indexing
of `records[0]`, or `Option::expect` with the given message. -/
inductive PanicMsg where
  | indexOutOfBounds
  | expectFailed (msg : String)
deriving DecidableEq

/-- `AwsEvent::event_name` for `S3Event` (`events.rs` lines 32-36):
`self.records[0].event_name.clone().expect("No event name!")`. Indexing an
empty `records` panics out-of-bounds; a missing name panics via
`expect`. -/
def S3Event.event_name (e : S3Event) : Except PanicMsg String :=
  match e.records with
  | [] => .error .indexOutOfBounds
  | r :: _ =>
    match r.event_name with
    | some s => .ok s
    | none => .error (.expectFailed "No event name!")

/-- `AwsEvent::event_name` for `SnsEvent` (`events.rs` lines 39-43):
`self.records[0].sns.topic_arn.clone()`. Indexing an empty `records`
panics out-of-bounds; the topic ARN itself is a required field. -/
def SnsEvent.event_name (e : SnsEvent) : Except PanicMsg String :=
  match e.records with
  | [] => .error .indexOutOfBounds
  | r :: _ => .ok r.sns.topic_arn

/-- `AwsEvent::event_name` for `SqsEvent` (`events.rs` lines 46-53):
`self.records[0].event_source_arn.clone().expect("No topic ARN!")`. -/
def SqsEvent.event_name (e : SqsEvent) : Except PanicMsg String :=
  match e.records with
  | [] => .error .indexOutOfBounds
  | r :: _ =>
    match r.event_source_arn with
    | some s => .ok s
    | none => .error (.expectFailed "No topic ARN!")

/-- `TypeId::of::<E>()` for the closed set of `AwsEvent` implementations of
this crate. -/
inductive ShapeTag where
  | s3
  | sns
  | sqs
deriving DecidableEq

/-- Outcome of `get_event_key` (`handler.rs` lines 27-46), with panics on
the extraction path made explicit. `parseError` is the
`Err("Failed to parse event")` branch. -/
inductive KeyOutcome where
  | ok (tag : ShapeTag) (key : String)
  | parseError
  | panicked (m : PanicMsg)
deriving DecidableEq

/-- Folds a shape's extraction result into a `KeyOutcome` under a given
tag. -/
def keyed (tag : ShapeTag) : Except PanicMsg String → KeyOutcome
  | .ok k => .ok tag k
  | .error m => .panicked m

/-- `get_event_key` (`handler.rs` lines 27-46): attempts the S3, SNS and
SQS parses in that order; the first success supplies the `(TypeId, name)`
key via `event_name`; if none parses, errors. -/
def get_event_key (event : LambdaEvent Json) : KeyOutcome :=
  match S3Event.from_request event.payload with
  | .ok parsed_event => keyed .s3 parsed_event.event_name
  | .error _ =>
    match SnsEvent.from_request event.payload with
    | .ok parsed_event => keyed .sns parsed_event.event_name
    | .error _ =>
      match SqsEvent.from_request event.payload with
      | .ok parsed_event => keyed .sqs parsed_event.event_name
      | .error _ => .parseError

/-- The `LambdaError` values produced by the dispatch path, named after the
source string literals: `unableToGetEventTypeOrName` for the message in
`handler.rs` line 145, `noHandlerForThisEvent` for the message in line 140,
`failedToProcessEvent` for the message in `events.rs` line 98 (the spec
taxonomy calls these `UnrecognizedShape`, `NoHandlerRegistered` and
`EventConversionFailed`); `handlerFailure` is an error produced by a user
handler itself. -/
inductive DispatchError where
  | unableToGetEventTypeOrName
  | noHandlerForThisEvent
  | failedToProcessEvent
  | handlerFailure (msg : String)
deriving DecidableEq

/-- `Box<dyn Callable<R>>`: the type-erased registry entry. In this crate
the only `Callable` constructors are `AwsEventHandler<T, R>` (via
`LambdaHandler::route`) for the three `AwsEvent` types, so an entry is one
of three wrapped handler functions. A handler produces a `LambdaFuture`
resolving to `Ok` or a `LambdaError`, modelled as `Except`. -/
inductive HandlerEntry (R : Type) where
  | s3 (h : LambdaEvent S3Event → Except DispatchError R)
  | sns (h : LambdaEvent SnsEvent → Except DispatchError R)
  | sqs (h : LambdaEvent SqsEvent → Except DispatchError R)

/-- `TypeId::of::<E>()` of the concrete event type `E` an entry was
registered against. -/
def HandlerEntry.tag {R : Type} : HandlerEntry R → ShapeTag
  | .s3 _ => .s3
  | .sns _ => .sns
  | .sqs _ => .sqs

/-- `Callable::call` for `AwsEventHandler<T, R>` (`events.rs` lines
89-101): converts the generic event via `T::from_event`; on success calls
the stored handler, otherwise errors with the `failedToProcessEvent`
message. -/
def HandlerEntry.call {R : Type} : HandlerEntry R → LambdaEvent Json → Except DispatchError R
  | .s3 h, event =>
    match S3Event.from_event event with
    | .ok converted_event => h converted_event
    | .error _ => .error .failedToProcessEvent
  | .sns h, event =>
    match SnsEvent.from_event event with
    | .ok converted_event => h converted_event
    | .error _ => .error .failedToProcessEvent
  | .sqs h, event =>
    match SqsEvent.from_event event with
    | .ok converted_event => h converted_event
    | .error _ => .error .failedToProcessEvent

/-- Association-list binding insertion with `HashMap::insert` semantics:
replaces the binding of the key if present, otherwise adds one. -/
def insertEntry {R : Type} (k : ShapeTag × String) (v : HandlerEntry R) :
    List ((ShapeTag × String) × HandlerEntry R) → List ((ShapeTag × String) × HandlerEntry R)
  | [] => [(k, v)]
  | (k', v') :: rest => if k' = k then (k, v) :: rest else (k', v') :: insertEntry k v rest

/-- Association-list lookup (`HashMap::get`). -/
def getEntry {R : Type} (k : ShapeTag × String) :
    List ((ShapeTag × String) × HandlerEntry R) → Option (HandlerEntry R)
  | [] => none
  | (k', v) :: rest => if k' = k then some v else getEntry k rest

/-- Number of bindings of a key in the registry list; a `HashMap` keeps at
most one. -/
def countKey {R : Type} (k : ShapeTag × String)
    (l : List ((ShapeTag × String) × HandlerEntry R)) : Nat :=
  l.countP fun p => decide (p.1 = k)

/-- `LambdaHandler<R>` (`handler.rs` lines 52-58): the router, owning the
mapping of event type and name to its handler. -/
structure LambdaHandler (R : Type) where
  handlers : List ((ShapeTag × String) × HandlerEntry R)

/-- `LambdaHandler::new` (`handler.rs` lines 66-70): empty registry. -/
def LambdaHandler.new {R : Type} : LambdaHandler R :=
  ⟨[]⟩

/-- `LambdaHandler::route` (`handler.rs` lines 82-97): wraps the handler in
an `AwsEventHandler` (here: the `HandlerEntry` constructor of its concrete
event type, which also fixes the `TypeId` part of the key) and inserts it
under `(TypeId::of::<E>(), event_name)`, returning the router for
chaining. -/
def LambdaHandler.route {R : Type} (self : LambdaHandler R) (event_name : String)
    (entry : HandlerEntry R) : LambdaHandler R :=
  ⟨insertEntry (entry.tag, event_name) entry self.handlers⟩

/-- Outcome of one dispatch: the awaited future resolves to a response or a
`LambdaError`, or the synchronous part of `call` panicked before returning
a future. -/
inductive DispatchOutcome (R : Type) where
  | ok (r : R)
  | err (e : DispatchError)
  | panicked (m : PanicMsg)
deriving DecidableEq

/-- Awaiting a handler future: folds its `Result` into the dispatch
outcome. -/
def futureOutcome {R : Type} : Except DispatchError R → DispatchOutcome R
  | .ok r => .ok r
  | .error e => .err e

/-- `Service::call` for `LambdaHandler<R>` (`handler.rs` lines 130-148):
clones the request, computes the event key, looks the key up in the
registry and calls the found handler, or produces the
`noHandlerForThisEvent` or `unableToGetEventTypeOrName` error. A panic
raised inside `get_event_key` propagates. `call` takes `&mut self`, so the
embedding returns the outcome together with the router state after the
call; the body only reads the registry, hence `self` is returned as is on
every branch. -/
def LambdaHandler.call {R : Type} (self : LambdaHandler R) (req : LambdaEvent Json) :
    DispatchOutcome R × LambdaHandler R :=
  match get_event_key req with
  | .ok tag key =>
    match getEntry (tag, key) self.handlers with
    | some handler => (futureOutcome (handler.call req), self)
    | none => (.err .noHandlerForThisEvent, self)
  | .parseError => (.err .unableToGetEventTypeOrName, self)
  | .panicked m => (.panicked m, self)

/-- Registration discipline of `LambdaHandler::route`: every registry
binding's `TypeId` component equals the tag of the concrete event type the
stored entry was registered against (`route` builds the key from
`TypeId::of::<E>()` of the handler's own type parameter). -/
def TagConsistent {R : Type} (l : List ((ShapeTag × String) × HandlerEntry R)) : Prop :=
  ∀ kv, kv ∈ l → kv.1.1 = kv.2.tag

/-- The type-erased entry's re-parse of the payload into its concrete event
type succeeds, so `Callable::call` reaches the stored user handler and not
the `failedToProcessEvent` branch. -/
def ConversionSucceeds {R : Type} : HandlerEntry R → LambdaEvent Json → Prop
  | .s3 h, req => ∃ ev, S3Event.from_event req = Except.ok ev ∧
      HandlerEntry.call (.s3 h) req = h ev
  | .sns h, req => ∃ ev, SnsEvent.from_event req = Except.ok ev ∧
      HandlerEntry.call (.sns h) req = h ev
  | .sqs h, req => ∃ ev, SqsEvent.from_event req = Except.ok ev ∧
      HandlerEntry.call (.sqs h) req = h ev

/-- Whenever the entry's conversion of the generic event succeeds, the user
handler is invoked on the converted event, and that event carries the
dispatched request's context unchanged. -/
def ContextDelivered {R : Type} : HandlerEntry R → LambdaEvent Json → Prop
  | .s3 h, req => ∀ ev, S3Event.from_event req = Except.ok ev →
      HandlerEntry.call (.s3 h) req = h ev ∧ ev.context = req.context
  | .sns h, req => ∀ ev, SnsEvent.from_event req = Except.ok ev →
      HandlerEntry.call (.sns h) req = h ev ∧ ev.context = req.context
  | .sqs h, req => ∀ ev, SqsEvent.from_event req = Except.ok ev →
      HandlerEntry.call (.sqs h) req = h ev ∧ ev.context = req.context

/-- A crafted ambiguous payload: its single record carries both an S3
action name and an SQS source identifier, so it parses under both the S3
and the SQS schema. -/
def ambPayload : Json :=
  .obj [("Records", .arr [.obj [("eventName", .str "create"),
    ("eventSourceARN", .str "queue-arn")]])]

/-- A concrete invocation context. -/
def ctx0 : Context :=
  ⟨"req-42"⟩

/-- A payload whose single record is an empty object: parses as an S3 event
whose first record has no action name. -/
def noNamePayload : Json :=
  .obj [("Records", .arr [.obj []])]

/-- The payload with an empty records array: parses under every shape, and
key extraction then indexes `records[0]` out of bounds. -/
def emptyRecordsPayload : Json :=
  .obj [("Records", .arr [])]

/-- First of two handlers registered under the same routing key. -/
def entryOne : HandlerEntry Nat :=
  .s3 fun _ => .ok 1

/-- Second of two handlers registered under the same routing key. -/
def entryTwo : HandlerEntry Nat :=
  .s3 fun _ => .ok 2

/-- Router on which both `entryOne` and `entryTwo` were registered, in that
order, under the same routing key `(S3Event, "x")`. -/
def twiceRouter : LambdaHandler Nat :=
  (LambdaHandler.new.route "x" entryOne).route "x" entryTwo

/-- A storage payload whose first record's action name is `x`. -/
def xPayload : Json :=
  .obj [("Records", .arr [.obj [("eventName", .str "x")]])]

/-- The spec's concrete scenario handler: threads the request identifier of
the invocation context into the response. -/
def putHandler : LambdaEvent S3Event → Except DispatchError String :=
  fun event => .ok event.context.request_id

/-- The type-erased registration of `putHandler` against `S3Event`. -/
def putEntry : HandlerEntry String :=
  .s3 putHandler

/-- Router with `putHandler` registered under
`(S3Event, "ObjectCreated:Put")`. -/
def putRouter : LambdaHandler String :=
  LambdaHandler.new.route "ObjectCreated:Put" putEntry

/-- A storage payload whose first record's action name is
`ObjectCreated:Put`. -/
def putPayload : Json :=
  .obj [("Records", .arr [.obj [("eventName", .str "ObjectCreated:Put")]])]

/-- The dispatched request of the concrete scenario. -/
def putReq : LambdaEvent Json :=
  ⟨putPayload, ctx0⟩

theorem call_handlers_eq {R : Type} (self : LambdaHandler R) (req : LambdaEvent Json) :
    (self.call req).2 = self := by
  unfold LambdaHandler.call
  cases hk : get_event_key req with
  | ok tag key =>
    simp only [hk]
    cases hg : getEntry (tag, key) self.handlers <;> simp [hg]
  | parseError => simp [hk]
  | panicked m => simp [hk]

theorem route_handlers {R : Type} (self : LambdaHandler R) (name : String)
    (e : HandlerEntry R) :
    (self.route name e).handlers = insertEntry (e.tag, name) e self.handlers :=
  rfl

theorem from_event_ok {T : Type} (parse : Json → Except Unit T) (req : LambdaEvent Json)
    (d : T) (h : parse req.payload = Except.ok d) :
    from_event parse req = Except.ok ⟨d, req.context⟩ := by
  unfold from_event
  simp [h]

theorem getEntry_insertEntry_self {R : Type} (k : ShapeTag × String) (v : HandlerEntry R)
    (l : List ((ShapeTag × String) × HandlerEntry R)) :
    getEntry k (insertEntry k v l) = some v := by
  induction l with
  | nil => simp [insertEntry, getEntry]
  | cons hd tl ih =>
    obtain ⟨k', v'⟩ := hd
    by_cases hq : k' = k <;> simp [insertEntry, getEntry, hq, ih]

theorem countKey_cons {R : Type} (k : ShapeTag × String)
    (hd : (ShapeTag × String) × HandlerEntry R)
    (tl : List ((ShapeTag × String) × HandlerEntry R)) :
    countKey k (hd :: tl) = countKey k tl + (if hd.1 = k then 1 else 0) := by
  by_cases hq : hd.1 = k <;> simp [countKey, List.countP_cons, hq]

theorem countKey_insertEntry_self {R : Type} (k : ShapeTag × String) (v : HandlerEntry R)
    (l : List ((ShapeTag × String) × HandlerEntry R)) (h : countKey k l ≤ 1) :
    countKey k (insertEntry k v l) = 1 := by
  induction l with
  | nil => simp [insertEntry, countKey, List.countP_cons]
  | cons hd tl ih =>
    obtain ⟨k', v'⟩ := hd
    rw [countKey_cons] at h
    by_cases hq : k' = k
    · have htl : countKey k tl = 0 := by
        simp [hq] at h
        omega
      simp [insertEntry, hq, countKey_cons, htl]
    · have h' : countKey k tl ≤ 1 := by
        simp [hq] at h
        omega
      simp [insertEntry, hq, countKey_cons, ih h']

theorem countKey_insertEntry_ne {R : Type} (k k' : ShapeTag × String) (v : HandlerEntry R)
    (l : List ((ShapeTag × String) × HandlerEntry R)) (h : k' ≠ k) :
    countKey k (insertEntry k' v l) = countKey k l := by
  induction l with
  | nil => simp [insertEntry, countKey, List.countP_cons, h]
  | cons hd tl ih =>
    obtain ⟨k'', v''⟩ := hd
    by_cases hq : k'' = k'
    · simp [insertEntry, hq, countKey_cons, h]
    · simp [insertEntry, hq, countKey_cons, ih]

theorem countKey_new {R : Type} (k : ShapeTag × String) :
    countKey k (LambdaHandler.new (R := R)).handlers = 0 := by
  simp [LambdaHandler.new, countKey]

theorem countKey_route_le_one {R : Type} (self : LambdaHandler R)
    (hs : ∀ k, countKey k self.handlers ≤ 1) (name : String) (e : HandlerEntry R) :
    ∀ k, countKey k (self.route name e).handlers ≤ 1 := by
  intro k
  unfold LambdaHandler.route
  by_cases hq : (e.tag, name) = k
  · rw [hq, countKey_insertEntry_self k e self.handlers (hs k)]
  · rw [countKey_insertEntry_ne k (e.tag, name) e self.handlers hq]
    exact hs k

theorem tagConsistent_insertEntry {R : Type} (k : ShapeTag × String) (v : HandlerEntry R)
    (hk : k.1 = v.tag) (l : List ((ShapeTag × String) × HandlerEntry R))
    (hl : TagConsistent l) : TagConsistent (insertEntry k v l) := by
  induction l with
  | nil =>
    intro kv hkv
    simp [insertEntry] at hkv
    rw [hkv]
    exact hk
  | cons hd tl ih =>
    intro kv hkv
    obtain ⟨k', v'⟩ := hd
    by_cases hq : k' = k
    · simp [insertEntry, hq] at hkv
      rcases hkv with h | h
      · rw [h]; exact hk
      · exact hl kv (List.mem_cons_of_mem _ h)
    · simp [insertEntry, hq] at hkv
      rcases hkv with h | h
      · rw [h]; exact hl (k', v') (List.mem_cons_self _ _)
      · exact ih (fun kv2 h2 => hl kv2 (List.mem_cons_of_mem _ h2)) kv h

theorem tagConsistent_new {R : Type} : TagConsistent (LambdaHandler.new (R := R)).handlers := by
  intro kv hkv
  simp [LambdaHandler.new] at hkv

theorem tagConsistent_route {R : Type} (self : LambdaHandler R) (name : String)
    (e : HandlerEntry R) (h : TagConsistent self.handlers) :
    TagConsistent (self.route name e).handlers :=
  tagConsistent_insertEntry (e.tag, name) e rfl self.handlers h

theorem getEntry_mem {R : Type} (k : ShapeTag × String)
    (l : List ((ShapeTag × String) × HandlerEntry R)) (v : HandlerEntry R)
    (h : getEntry k l = some v) : (k, v) ∈ l := by
  induction l with
  | nil => simp [getEntry] at h
  | cons hd tl ih =>
    obtain ⟨k', v'⟩ := hd
    unfold getEntry at h
    by_cases hq : k' = k
    · simp [hq] at h
      rw [← hq, ← h]
      exact List.mem_cons_self _ _
    · simp [hq] at h
      exact List.mem_cons_of_mem _ (ih h)

/-- C1: for every payload, `get_event_key` attempts the built-in shape
parses in the fixed declaration order S3, then SNS, then SQS, and the first
shape whose parse succeeds supplies the `(shape tag, key)` used for
routing: if the S3 parse succeeds the outcome is S3's tag and extracted
key; only if it fails is SNS consulted, and only if both fail is SQS; so
for any payload parsing under two shapes the earlier-declared shape wins
(`keyed` folds the winning shape's extraction result into the outcome). -/
theorem c1_shape_priority (p : Json) (c : Context) :
    (∀ e, S3Event.from_request p = Except.ok e →
      get_event_key ⟨p, c⟩ = keyed .s3 e.event_name) ∧
    (∀ e, S3Event.from_request p = Except.error () → SnsEvent.from_request p = Except.ok e →
      get_event_key ⟨p, c⟩ = keyed .sns e.event_name) ∧
    (∀ e, S3Event.from_request p = Except.error () → SnsEvent.from_request p = Except.error () →
      SqsEvent.from_request p = Except.ok e →
      get_event_key ⟨p, c⟩ = keyed .sqs e.event_name) := by
  refine ⟨fun e h1 => ?_, fun e h1 h2 => ?_, fun e h1 h2 h3 => ?_⟩ <;>
    simp [get_event_key, h1, *]

/-- C1 witness: the crafted ambiguous payload parses under both the S3 and
the SQS schema, and dispatch keys it as an S3 event under the S3 action
name, not as an SQS event. -/
theorem c1_shape_priority_witness :
    S3Event.from_request ambPayload = Except.ok ⟨[⟨some "create"⟩]⟩ ∧
    SqsEvent.from_request ambPayload = Except.ok ⟨[⟨some "queue-arn"⟩]⟩ ∧
    get_event_key ⟨ambPayload, ctx0⟩ = .ok .s3 "create" := by
  refine ⟨rfl, rfl, ?_⟩
  exact (c1_shape_priority ambPayload ctx0).1 ⟨[⟨some "create"⟩]⟩ rfl

/-- C2: for every payload on which key determination succeeds with some
`(tag, key)` for which the registry holds no entry, dispatch returns the
`noHandlerForThisEvent` error (the spec's `NoHandlerRegistered`), leaves
the registry as is, and invokes no handler: the outcome is this fixed error
whatever handlers the registry holds elsewhere, never a success. -/
theorem c2_no_handler_registered {R : Type} (self : LambdaHandler R) (req : LambdaEvent Json)
    (tag : ShapeTag) (key : String)
    (hk : get_event_key req = .ok tag key)
    (hg : getEntry (tag, key) self.handlers = none) :
    self.call req = (.err .noHandlerForThisEvent, self) := by
  unfold LambdaHandler.call
  simp [hk, hg]

/-- C2 witness: the ambiguous payload keys to `(S3, "create")`; dispatching
it on the empty router yields the no-handler error. -/
theorem c2_no_handler_registered_witness :
    get_event_key ⟨ambPayload, ctx0⟩ = .ok .s3 "create" ∧
    (LambdaHandler.new (R := Nat)).call ⟨ambPayload, ctx0⟩ =
      (.err .noHandlerForThisEvent, LambdaHandler.new) :=
  ⟨rfl, c2_no_handler_registered LambdaHandler.new ⟨ambPayload, ctx0⟩ .s3 "create" rfl rfl⟩

/-- C3: for every payload rejected by all three shape parses,
`get_event_key` yields its parse-failure branch and dispatch returns the
`unableToGetEventTypeOrName` error (the spec's `UnrecognizedShape`) on any
router whatsoever — no registry lookup can influence the outcome and no
handler is invoked. -/
theorem c3_unrecognized_shape {R : Type} (p : Json) (c : Context) (self : LambdaHandler R)
    (h1 : S3Event.from_request p = Except.error ())
    (h2 : SnsEvent.from_request p = Except.error ())
    (h3 : SqsEvent.from_request p = Except.error ()) :
    get_event_key ⟨p, c⟩ = .parseError ∧
    self.call ⟨p, c⟩ = (.err .unableToGetEventTypeOrName, self) := by
  have hk : get_event_key ⟨p, c⟩ = .parseError := by
    simp [get_event_key, h1, h2, h3]
  refine ⟨hk, ?_⟩
  unfold LambdaHandler.call
  simp [hk]

/-- C3 witness: a bare number parses under no shape, and dispatching it on
the empty router yields the unrecognized-shape error. -/
theorem c3_unrecognized_shape_witness :
    S3Event.from_request (Json.num 3) = Except.error () ∧
    (LambdaHandler.new (R := Nat)).call ⟨Json.num 3, ctx0⟩ =
      (.err .unableToGetEventTypeOrName, LambdaHandler.new) :=
  ⟨rfl, (c3_unrecognized_shape (Json.num 3) ctx0 LambdaHandler.new rfl rfl rfl).2⟩

theorem get_event_key_s3_parse (req : LambdaEvent Json) (key : String)
    (h : get_event_key req = .ok .s3 key) :
    ∃ e, S3Event.from_request req.payload = Except.ok e := by
  cases h1 : S3Event.from_request req.payload with
  | ok e => exact ⟨e, rfl⟩
  | error u =>
    exfalso
    unfold get_event_key at h
    simp only [h1] at h
    cases h2 : SnsEvent.from_request req.payload with
    | ok e2 =>
      simp only [h2] at h
      unfold keyed at h
      cases h3 : e2.event_name <;> simp only [h3] at h <;> simp at h
    | error u2 =>
      simp only [h2] at h
      cases h3 : SqsEvent.from_request req.payload with
      | ok e3 =>
        simp only [h3] at h
        unfold keyed at h
        cases h4 : e3.event_name <;> simp only [h4] at h <;> simp at h
      | error u3 => simp only [h3] at h; simp at h

theorem get_event_key_sns_parse (req : LambdaEvent Json) (key : String)
    (h : get_event_key req = .ok .sns key) :
    ∃ e, SnsEvent.from_request req.payload = Except.ok e := by
  cases h2 : SnsEvent.from_request req.payload with
  | ok e => exact ⟨e, rfl⟩
  | error u2 =>
    exfalso
    unfold get_event_key at h
    cases h1 : S3Event.from_request req.payload with
    | ok e1 =>
      simp only [h1] at h
      unfold keyed at h
      cases h3 : e1.event_name <;> simp only [h3] at h <;> simp at h
    | error u1 =>
      simp only [h1, h2] at h
      cases h3 : SqsEvent.from_request req.payload with
      | ok e3 =>
        simp only [h3] at h
        unfold keyed at h
        cases h4 : e3.event_name <;> simp only [h4] at h <;> simp at h
      | error u3 => simp only [h3] at h; simp at h

theorem get_event_key_sqs_parse (req : LambdaEvent Json) (key : String)
    (h : get_event_key req = .ok .sqs key) :
    ∃ e, SqsEvent.from_request req.payload = Except.ok e := by
  cases h3 : SqsEvent.from_request req.payload with
  | ok e => exact ⟨e, rfl⟩
  | error u3 =>
    exfalso
    unfold get_event_key at h
    cases h1 : S3Event.from_request req.payload with
    | ok e1 =>
      simp only [h1] at h
      unfold keyed at h
      cases hn : e1.event_name <;> simp only [hn] at h <;> simp at h
    | error u1 =>
      simp only [h1] at h
      cases h2 : SnsEvent.from_request req.payload with
      | ok e2 =>
        simp only [h2] at h
        unfold keyed at h
        cases hn : e2.event_name <;> simp only [hn] at h <;> simp at h
      | error u2 => simp only [h2, h3] at h; simp at h

/-- C4: registering `e1` and then `e2` under the same `(shape, key)` pair
(same concrete event type, hence same tag, and same key string) leaves
exactly one registry binding for that pair — the second registration
silently replaces the first — the binding holds `e2`, and any subsequent
dispatch whose key determination yields that pair invokes `e2` only: the
outcome is `e2`'s awaited result, with `e1` nowhere in it. The
`countKey _ _ ≤ 1` hypothesis is the `HashMap` invariant of at most one
binding per key, available for built routers via `countKey_new` and
`countKey_route_le_one`. -/
theorem c4_last_registration_wins {R : Type} (self : LambdaHandler R) (k : String)
    (e1 e2 : HandlerEntry R) (htag : e1.tag = e2.tag)
    (hcount : countKey (e2.tag, k) self.handlers ≤ 1) :
    countKey (e2.tag, k) ((self.route k e1).route k e2).handlers = 1 ∧
    getEntry (e2.tag, k) ((self.route k e1).route k e2).handlers = some e2 ∧
    ∀ req : LambdaEvent Json, get_event_key req = .ok e2.tag k →
      ((self.route k e1).route k e2).call req =
        (futureOutcome (e2.call req), (self.route k e1).route k e2) := by
  have h1 : countKey (e2.tag, k) (self.route k e1).handlers = 1 := by
    rw [route_handlers, htag]
    exact countKey_insertEntry_self _ e1 self.handlers hcount
  have h3 : getEntry (e2.tag, k) ((self.route k e1).route k e2).handlers = some e2 := by
    rw [route_handlers (self.route k e1)]
    exact getEntry_insertEntry_self _ e2 _
  refine ⟨?_, h3, fun req hk => ?_⟩
  · rw [route_handlers (self.route k e1)]
    exact countKey_insertEntry_self _ e2 _ (le_of_eq h1)
  · unfold LambdaHandler.call
    simp [hk, h3]

/-- C4 witness: on the router holding both registrations for
`(S3Event, "x")`, the key has exactly one binding and dispatching a
matching storage payload returns the second handler's response `2`, not the
first handler's `1`. -/
theorem c4_last_registration_wins_witness :
    countKey (.s3, "x") twiceRouter.handlers = 1 ∧
    twiceRouter.call ⟨xPayload, ctx0⟩ = (.ok 2, twiceRouter) := by
  have h := c4_last_registration_wins LambdaHandler.new "x" entryOne entryTwo rfl
    (by decide)
  exact ⟨h.1, h.2.2 ⟨xPayload, ctx0⟩ rfl⟩

/-- C5: on any router obeying the registration discipline (every binding's
tag is the tag of the concrete type its entry was registered against, which
`new` and `route` guarantee), whenever key determination succeeds with
`(tag, key)` and the registry lookup finds an entry, that entry's re-parse
of the same payload into its concrete event type succeeds as well — the
entry's tag equals the winning shape's tag, and parsing the same value is
deterministic — so `Callable::call` reaches the user handler and its
`failedToProcessEvent` branch (the spec's `EventConversionFailed`) is
unreachable. -/
theorem c5_reconversion_succeeds {R : Type} (self : LambdaHandler R)
    (hc : TagConsistent self.handlers) (req : LambdaEvent Json)
    (tag : ShapeTag) (key : String) (entry : HandlerEntry R)
    (hk : get_event_key req = .ok tag key)
    (hg : getEntry (tag, key) self.handlers = some entry) :
    ConversionSucceeds entry req := by
  have htag : tag = entry.tag := hc ((tag, key), entry) (getEntry_mem _ _ _ hg)
  cases entry with
  | s3 h =>
    have htag' : tag = .s3 := htag
    subst htag'
    obtain ⟨e, he⟩ := get_event_key_s3_parse req key hk
    have hfe : S3Event.from_event req = Except.ok ⟨e, req.context⟩ :=
      from_event_ok S3Event.from_request req e he
    exact ⟨⟨e, req.context⟩, hfe, by simp [HandlerEntry.call, hfe]⟩
  | sns h =>
    have htag' : tag = .sns := htag
    subst htag'
    obtain ⟨e, he⟩ := get_event_key_sns_parse req key hk
    have hfe : SnsEvent.from_event req = Except.ok ⟨e, req.context⟩ :=
      from_event_ok SnsEvent.from_request req e he
    exact ⟨⟨e, req.context⟩, hfe, by simp [HandlerEntry.call, hfe]⟩
  | sqs h =>
    have htag' : tag = .sqs := htag
    subst htag'
    obtain ⟨e, he⟩ := get_event_key_sqs_parse req key hk
    have hfe : SqsEvent.from_event req = Except.ok ⟨e, req.context⟩ :=
      from_event_ok SqsEvent.from_request req e he
    exact ⟨⟨e, req.context⟩, hfe, by simp [HandlerEntry.call, hfe]⟩

/-- C5 witness: on the router with the storage handler registered under
`(S3Event, "ObjectCreated:Put")`, the matching request keys to that pair
and the matched entry's re-parse succeeds. -/
theorem c5_reconversion_succeeds_witness :
    get_event_key putReq = .ok .s3 "ObjectCreated:Put" ∧
    ConversionSucceeds putEntry putReq := by
  refine ⟨rfl, ?_⟩
  exact c5_reconversion_succeeds putRouter
    (tagConsistent_route _ _ _ tagConsistent_new) putReq .s3 "ObjectCreated:Put"
    putEntry rfl rfl

/-- C6: for every payload whose first successful shape parse yields a first
record lacking that shape's discriminator (a storage record with no action
name, or — when the S3 and SNS parses fail — a queue record with no source
identifier), dispatch ends in the unrecoverable extraction failure
(the `expect` panic, which is how the spec's `MissingRoutingKey` is
surfaced per section 4.2 step 3) as the invocation's outcome, on any router:
no routing key is produced and no success is possible. The SNS shape has no
such case, its discriminator being a required field of a successful
parse. -/
theorem c6_missing_discriminator_fails {R : Type} (p : Json) (c : Context)
    (self : LambdaHandler R) :
    (∀ r rest, S3Event.from_request p = Except.ok ⟨r :: rest⟩ → r.event_name = none →
      self.call ⟨p, c⟩ = (.panicked (.expectFailed "No event name!"), self)) ∧
    (∀ r rest, S3Event.from_request p = Except.error () →
      SnsEvent.from_request p = Except.error () →
      SqsEvent.from_request p = Except.ok ⟨r :: rest⟩ → r.event_source_arn = none →
      self.call ⟨p, c⟩ = (.panicked (.expectFailed "No topic ARN!"), self)) := by
  constructor
  · intro r rest h1 hname
    have hk : get_event_key ⟨p, c⟩ = .panicked (.expectFailed "No event name!") := by
      simp [get_event_key, h1, keyed, S3Event.event_name, hname]
    unfold LambdaHandler.call
    simp [hk]
  · intro r rest h1 h2 h3 harn
    have hk : get_event_key ⟨p, c⟩ = .panicked (.expectFailed "No topic ARN!") := by
      simp [get_event_key, h1, h2, h3, keyed, SqsEvent.event_name, harn]
    unfold LambdaHandler.call
    simp [hk]

/-- C6 witness: the payload whose single record is an empty object parses
as an S3 event with no action name, and dispatching it on the empty router
ends in the extraction failure. -/
theorem c6_missing_discriminator_fails_witness :
    S3Event.from_request noNamePayload = Except.ok ⟨[⟨none⟩]⟩ ∧
    (LambdaHandler.new (R := Nat)).call ⟨noNamePayload, ctx0⟩ =
      (.panicked (.expectFailed "No event name!"), LambdaHandler.new) :=
  ⟨rfl, (c6_missing_discriminator_fails noNamePayload ctx0 LambdaHandler.new).1
    ⟨none⟩ [] rfl rfl⟩

/-- C7: for every matched invocation — key determination succeeded and the
registry lookup found the registered entry — dispatch hands the request to
that entry, and the conversion from the generic event to the concretely
typed event preserves the invocation context verbatim: whenever the
conversion succeeds, the user handler receives an event whose context,
request identifier included, equals the context supplied to dispatch. -/
theorem c7_context_passthrough {R : Type} (self : LambdaHandler R) (req : LambdaEvent Json)
    (tag : ShapeTag) (key : String) (entry : HandlerEntry R)
    (hk : get_event_key req = .ok tag key)
    (hg : getEntry (tag, key) self.handlers = some entry) :
    (self.call req).1 = futureOutcome (entry.call req) ∧ ContextDelivered entry req := by
  constructor
  · unfold LambdaHandler.call
    simp [hk, hg]
  · cases entry with
    | s3 h =>
      intro ev hev
      refine ⟨by simp [HandlerEntry.call, hev], ?_⟩
      unfold S3Event.from_event from_event at hev
      cases hp : S3Event.from_request req.payload with
      | ok d =>
        simp only [hp] at hev
        injection hev with h'
        rw [← h']
      | error u => simp only [hp] at hev; simp at hev
    | sns h =>
      intro ev hev
      refine ⟨by simp [HandlerEntry.call, hev], ?_⟩
      unfold SnsEvent.from_event from_event at hev
      cases hp : SnsEvent.from_request req.payload with
      | ok d =>
        simp only [hp] at hev
        injection hev with h'
        rw [← h']
      | error u => simp only [hp] at hev; simp at hev
    | sqs h =>
      intro ev hev
      refine ⟨by simp [HandlerEntry.call, hev], ?_⟩
      unfold SqsEvent.from_event from_event at hev
      cases hp : SqsEvent.from_request req.payload with
      | ok d =>
        simp only [hp] at hev
        injection hev with h'
        rw [← h']
      | error u => simp only [hp] at hev; simp at hev

/-- C7 witness: the spec's concrete scenario — with the storage handler
registered under `ObjectCreated:Put`, dispatching the matching storage
payload invokes it and the response carries the request identifier of the
supplied context unchanged. -/
theorem c7_context_passthrough_witness :
    (putRouter.call putReq).1 = .ok "req-42" ∧
    S3Event.from_event putReq = Except.ok ⟨⟨[⟨some "ObjectCreated:Put"⟩]⟩, ctx0⟩ ∧
    ContextDelivered putEntry putReq := by
  have h := c7_context_passthrough putRouter putReq .s3 "ObjectCreated:Put" putEntry rfl rfl
  exact ⟨h.1.trans rfl, rfl, h.2⟩

/-- C8: dispatch is idempotent as a routing decision — calling `call` a
second time, with the identical payload and context, on the router state
the first call returned produces the identical outcome-and-state pair, and
the registry lookup of every key is unchanged between the two calls; in
particular the chosen shape tag, extracted key, lookup result and failure
kind coincide across the two calls. -/
theorem c8_dispatch_idempotent {R : Type} (self : LambdaHandler R) (req : LambdaEvent Json) :
    (self.call req).2.call req = self.call req ∧
    ∀ k : ShapeTag × String, getEntry k (self.call req).2.handlers = getEntry k self.handlers := by
  rw [call_handlers_eq]
  exact ⟨rfl, fun k => rfl⟩

/-- C9: dispatch performs no mutation of the registry — for every router
state and every request, the router state after `call` (the embedding of
the `&mut self` receiver) equals the state before, on every path (match,
no-handler, unrecognized shape, or panic), so no binding is added, removed
or replaced. -/
theorem c9_call_preserves_registry {R : Type} (self : LambdaHandler R)
    (req : LambdaEvent Json) :
    (self.call req).2 = self ∧ (self.call req).2.handlers = self.handlers := by
  refine ⟨call_handlers_eq self req, ?_⟩
  rw [call_handlers_eq]

/-- C10: for every payload whose records array is empty yet which parses
successfully under its first successful shape, key extraction indexes the
first record unguarded and panics out of bounds, so dispatch on such a
payload ends in the out-of-bounds panic on any router — not in any of the
typed failure outcomes. -/
theorem c10_empty_records_panics {R : Type} (p : Json) (c : Context)
    (self : LambdaHandler R) :
    (S3Event.from_request p = Except.ok ⟨[]⟩ →
      self.call ⟨p, c⟩ = (.panicked .indexOutOfBounds, self)) ∧
    (S3Event.from_request p = Except.error () → SnsEvent.from_request p = Except.ok ⟨[]⟩ →
      self.call ⟨p, c⟩ = (.panicked .indexOutOfBounds, self)) ∧
    (S3Event.from_request p = Except.error () → SnsEvent.from_request p = Except.error () →
      SqsEvent.from_request p = Except.ok ⟨[]⟩ →
      self.call ⟨p, c⟩ = (.panicked .indexOutOfBounds, self)) := by
  refine ⟨fun h1 => ?_, fun h1 h2 => ?_, fun h1 h2 h3 => ?_⟩ <;>
  · have hk : get_event_key ⟨p, c⟩ = .panicked .indexOutOfBounds := by
      simp [get_event_key, keyed, S3Event.event_name, SnsEvent.event_name,
        SqsEvent.event_name, *]
    unfold LambdaHandler.call
    simp [hk]

/-- C10 witness: the JSON object whose `Records` field is the empty array
parses under all three shapes, and dispatching it crashes with the
out-of-bounds panic instead of producing a typed failure. -/
theorem c10_empty_records_panics_witness :
    S3Event.from_request emptyRecordsPayload = Except.ok ⟨[]⟩ ∧
    SnsEvent.from_request emptyRecordsPayload = Except.ok ⟨[]⟩ ∧
    SqsEvent.from_request emptyRecordsPayload = Except.ok ⟨[]⟩ ∧
    (LambdaHandler.new (R := Nat)).call ⟨emptyRecordsPayload, ctx0⟩ =
      (.panicked .indexOutOfBounds, LambdaHandler.new) :=
  ⟨rfl, rfl, rfl,
    (c10_empty_records_panics emptyRecordsPayload ctx0 LambdaHandler.new).1 rfl⟩

end LambdaHandlerRs
